import Mathlib

/-!
Verification of the wood-log mass estimator in `src/main.py`.

The script detects log cross-sections in an image, and for each detected
bounding box computes a diameter (meters) and a mass (kilograms) from a
cylindrical-volume model, drawing an annotation rectangle and label on a copy
of the image.  The per-detection arithmetic (lines 31-35), the loop building
the prediction list and the annotated image (lines 26-77), and the script-level
flow that fixes the density used by the computation (lines 9, 88-98, 147-161)
are embedded below over exact real numbers.
-/

/-- Module-level constant `DENSIDADE_MADEIRA = 600` (src/main.py line 9),
re-bound at the top of every script run. -/
noncomputable def DENSIDADE_MADEIRA : ℝ := 600

/-- Module-level constant `COMPRIMENTO_TORA = 2.0` (src/main.py line 10). -/
noncomputable def COMPRIMENTO_TORA : ℝ := 2.0

/-- Module-level constant `FATOR_CONVERSAO = 0.002` (src/main.py line 11). -/
noncomputable def FATOR_CONVERSAO : ℝ := 0.002

/-- One YOLO detection as consumed by `estimar_massa` (src/main.py line 28 and
line 42): integer box coordinates `x1, y1, x2, y2` and a confidence score. -/
structure Detection where
  x1 : ℤ
  y1 : ℤ
  x2 : ℤ
  y2 : ℤ
  conf : ℝ

/-- One entry of the `previsoes` list (src/main.py lines 38-43). -/
structure Measurement where
  bbox : ℤ × ℤ × ℤ × ℤ
  diametro_m : ℝ
  massa_kg : ℝ
  confianca : ℝ

/-- `largura_px = x2 - x1` (src/main.py line 31). -/
def largura_px (det : Detection) : ℤ :=
  det.x2 - det.x1

/-- `diametro_m = largura_px * FATOR_CONVERSAO` (src/main.py line 32), with the
conversion factor passed explicitly since it is a module global. -/
noncomputable def diametro_m (fator : ℝ) (det : Detection) : ℝ :=
  (largura_px det : ℝ) * fator

/-- `raio = diametro_m / 2` (src/main.py line 33). -/
noncomputable def raio (fator : ℝ) (det : Detection) : ℝ :=
  diametro_m fator det / 2

/-- `volume = math.pi * (raio ** 2) * COMPRIMENTO_TORA` (src/main.py line 34). -/
noncomputable def volume (fator comprimento : ℝ) (det : Detection) : ℝ :=
  Real.pi * (raio fator det) ^ 2 * comprimento

/-- `massa_kg = DENSIDADE_MADEIRA * volume` (src/main.py line 35). -/
noncomputable def massa_kg (densidade fator comprimento : ℝ) (det : Detection) : ℝ :=
  densidade * volume fator comprimento det

/-- The prediction record appended for one detection (src/main.py lines 38-43). -/
noncomputable def medir (densidade fator comprimento : ℝ) (det : Detection) : Measurement :=
  ⟨(det.x1, det.y1, det.x2, det.y2),
   diametro_m fator det,
   massa_kg densidade fator comprimento det,
   det.conf⟩

/-- A BGR color triple, as used by the OpenCV calls in src/main.py. -/
abbrev Cor := ℕ × ℕ × ℕ

/-- The image, as a pixel array indexed by integer coordinates. -/
abbrev Imagem := ℤ → ℤ → Cor

/-- Membership of the pixel `(px, py)` in the axis-aligned rectangle spanned by
the two corners `(x1, y1)` and `(x2, y2)`. -/
def dentroRet (x1 y1 x2 y2 px py : ℤ) : Bool :=
  decide (min x1 x2 ≤ px ∧ px ≤ max x1 x2 ∧ min y1 y2 ≤ py ∧ py ≤ max y1 y2)

/-- Model of the external OpenCV primitive `cv2.rectangle` (src/main.py lines
46 and 57-63): thickness `-1` fills the rectangle, a positive thickness colors
the border band of that width. -/
def cv2_rectangle (img : Imagem) (p1 p2 : ℤ × ℤ) (cor : Cor) (thickness : ℤ) :
    Imagem :=
  fun px py =>
    if thickness = -1 then
      if dentroRet p1.1 p1.2 p2.1 p2.2 px py then cor else img px py
    else
      if dentroRet p1.1 p1.2 p2.1 p2.2 px py &&
          ! dentroRet (p1.1 + thickness) (p1.2 + thickness)
            (p2.1 - thickness) (p2.2 - thickness) px py
      then cor else img px py

/-- Model of the label text of src/main.py line 49
(`f"{massa_kg:.1f}kg | {diametro_m:.2f}m | {conf:.2f}"`): Python float
formatting is runtime behavior outside this repository; it is modelled as a
deterministic decimal rendering of the three real values. -/
noncomputable def texto_etiqueta (massa diametro conf : ℝ) : String :=
  toString ⌊massa * 10⌋ ++ "kg | " ++ toString ⌊diametro * 100⌋ ++ "m | " ++
    toString ⌊conf * 100⌋

/-- Model of the external OpenCV query `cv2.getTextSize` (src/main.py lines
52-54): the precise font metrics are library internals; modelled as a
deterministic function of the text, returning ((width, height), baseline). -/
def cv2_getTextSize (texto : String) : (ℤ × ℤ) × ℤ :=
  ((10 * (texto.length : ℤ), 12), 3)

/-- Model of the external OpenCV primitive `cv2.putText` (src/main.py lines
66-75): colors the glyph box of the rendered text at the given origin
(rasterization details are library internals). -/
def cv2_putText (img : Imagem) (texto : String) (org : ℤ × ℤ) (cor : Cor) :
    Imagem :=
  fun px py =>
    if dentroRet org.1 (org.2 - (cv2_getTextSize texto).1.2)
        (org.1 + (cv2_getTextSize texto).1.1) org.2 px py
    then cor else img px py

/-- The drawing done for one detection (src/main.py lines 45-75): green
bounding-box rectangle of thickness 2, filled label background above the box,
and the label text. -/
noncomputable def anotar (det : Detection) (m : Measurement) (img : Imagem) :
    Imagem :=
  let img1 := cv2_rectangle img (det.x1, det.y1) (det.x2, det.y2) (0, 255, 0) 2
  let texto := texto_etiqueta m.massa_kg m.diametro_m m.confianca
  let altura_texto := (cv2_getTextSize texto).1.2
  let largura_texto := (cv2_getTextSize texto).1.1
  let img2 := cv2_rectangle img1 (det.x1, det.y1 - altura_texto - 10)
    (det.x1 + largura_texto, det.y1) (0, 255, 0) (-1)
  cv2_putText img2 texto (det.x1, det.y1 - 5) (0, 0, 0)

/-- The `for det in resultados[0].boxes` loop of src/main.py lines 26-75,
threading the annotated image and the accumulated `previsoes` list. -/
noncomputable def loopDet (densidade fator comprimento : ℝ) :
    List Detection → Imagem → List Measurement → Imagem × List Measurement
  | [], img, prev => (img, prev)
  | det :: resto, img, prev =>
      let m := medir densidade fator comprimento det
      loopDet densidade fator comprimento resto (anotar det m img) (prev ++ [m])

/-- `estimar_massa` (src/main.py lines 18-77), with the detection list produced
by the external YOLO model passed in as input, and the module globals passed
explicitly.  `imagem_anotada = imagem.copy()` (line 23) is the identity on the
pure image value; the loop then draws on it and builds `previsoes`. -/
noncomputable def estimar_massa (densidade fator comprimento : ℝ)
    (imagem : Imagem) (boxes : List Detection) : Imagem × List Measurement :=
  loopDet densidade fator comprimento boxes imagem []

/-- The sidebar density choice (src/main.py lines 147-158): two presets and a
custom value clamped by the widget to [100, 1000]. -/
inductive TipoMadeira where
  | pinho : TipoMadeira
  | carvalho : TipoMadeira
  | personalizado : ℝ → TipoMadeira

/-- The density assigned by the sidebar (src/main.py lines 152-161):
`Pinho` gives 500, `Carvalho` gives 700, `Personalizado` the entered value. -/
noncomputable def densidadeSelecionada : TipoMadeira → ℝ
  | TipoMadeira.pinho => 500
  | TipoMadeira.carvalho => 700
  | TipoMadeira.personalizado d => d

/-- One Streamlit run of src/main.py, top to bottom (Streamlit re-executes the
whole script on every interaction): line 9 binds `DENSIDADE_MADEIRA` to 600,
line 98 calls `estimar_massa` with the globals current at that point, and only
afterwards do lines 147-161 re-assign `DENSIDADE_MADEIRA` from the sidebar
selection.  Returns the estimation output together with the density the global
holds at the end of the run. -/
noncomputable def scriptRun (escolha : TipoMadeira) (imagem : Imagem)
    (boxes : List Detection) : (Imagem × List Measurement) × ℝ :=
  let densidade := DENSIDADE_MADEIRA
  let resultado := estimar_massa densidade FATOR_CONVERSAO COMPRIMENTO_TORA
    imagem boxes
  let densidadeFinal := densidadeSelecionada escolha
  (resultado, densidadeFinal)

/-- A concrete all-black test image. -/
def imagemTeste : Imagem := fun _ _ => (0, 0, 0)

/-- The Scenario-1 box (x1=100, y1=100, x2=200, y2=150). -/
noncomputable def detExemplo : Detection := ⟨100, 100, 200, 150, 9 / 10⟩

/-- A degenerate box with `x1 = x2` (zero width). -/
noncomputable def detDegenerada : Detection := ⟨100, 100, 100, 150, 9 / 10⟩

/-- A box of twice the Scenario-1 width. -/
noncomputable def detGrande : Detection := ⟨100, 100, 300, 150, 9 / 10⟩

/-- A box with `x2 < x1` (negative width). -/
noncomputable def detNegativa : Detection := ⟨200, 100, 100, 150, 9 / 10⟩

theorem loopDet_snd (densidade fator comprimento : ℝ) (dets : List Detection) :
    ∀ (img : Imagem) (prev : List Measurement),
      (loopDet densidade fator comprimento dets img prev).2 =
        prev ++ dets.map (medir densidade fator comprimento) := by
  induction dets with
  | nil => intro img prev; simp [loopDet]
  | cons det resto ih => intro img prev; simp [loopDet, ih]

theorem massa_closed_form (densidade fator comprimento : ℝ) (det : Detection) :
    massa_kg densidade fator comprimento det =
      densidade * (Real.pi * ((largura_px det : ℝ) * fator / 2) ^ 2 *
        comprimento) := by
  simp [massa_kg, volume, raio, diametro_m]

/-- C9: with an empty detection list, `estimar_massa` returns zero Measurement
records and the annotated image is pixel-for-pixel identical to the input. -/
theorem c9_empty_list_identity (densidade : ℝ) (img : Imagem) :
    (estimar_massa densidade FATOR_CONVERSAO COMPRIMENTO_TORA img []).2.length
        = 0 ∧
    ∀ px py : ℤ,
      (estimar_massa densidade FATOR_CONVERSAO COMPRIMENTO_TORA img []).1 px py
        = img px py := by
  exact ⟨rfl, fun px py => rfl⟩

/-- C5: the number of Measurement records returned by `estimar_massa` equals
the number of detections in the input, and the output list is exactly the map
of the pure per-detection function `medir` over the input, so each
Measurement is a deterministic function of its Detection and the calibration
parameters. -/
theorem c5_count_and_determinism (densidade fator comprimento : ℝ)
    (img : Imagem) (dets : List Detection) :
    (estimar_massa densidade fator comprimento img dets).2.length = dets.length
    ∧ (estimar_massa densidade fator comprimento img dets).2 =
        dets.map (medir densidade fator comprimento) := by
  have h := loopDet_snd densidade fator comprimento dets img []
  refine ⟨?_, ?_⟩
  · simp [estimar_massa, h]
  · simpa [estimar_massa] using h

/-- C1: every Measurement emitted by `estimar_massa` is `medir` of its
Detection, and `medir` realizes the closed-form model of src/main.py lines
31-35: `width_px = x2 - x1`, `diameter_m = width_px * factor`,
`radius_m = diameter_m / 2`, `volume_m3 = pi * radius_m ^ 2 * 2.0` (the log
length is the fixed constant 2.0 meters), and
`mass_kg = density * volume_m3`. -/
theorem c1_closed_form_model (densidade fator : ℝ) (img : Imagem)
    (dets : List Detection) (det : Detection) :
    (estimar_massa densidade fator COMPRIMENTO_TORA img dets).2 =
        dets.map (medir densidade fator COMPRIMENTO_TORA) ∧
    largura_px det = det.x2 - det.x1 ∧
    (medir densidade fator COMPRIMENTO_TORA det).diametro_m =
        (largura_px det : ℝ) * fator ∧
    raio fator det = (medir densidade fator COMPRIMENTO_TORA det).diametro_m / 2 ∧
    volume fator COMPRIMENTO_TORA det = Real.pi * (raio fator det) ^ 2 * 2.0 ∧
    (medir densidade fator COMPRIMENTO_TORA det).massa_kg =
        densidade * volume fator COMPRIMENTO_TORA det := by
  refine ⟨?_, rfl, rfl, rfl, ?_, rfl⟩
  · simpa [estimar_massa] using loopDet_snd densidade fator COMPRIMENTO_TORA dets img []
  · simp [volume, COMPRIMENTO_TORA]

/-- C2: on the box (x1=100, y1=100, x2=200, y2=150) with factor 0.002, density
600 and log length 2.0, the computation yields diameter 0.2 m, radius 0.1 m,
volume pi * 0.01 * 2 (within 0.0001 of 0.0628 cubic meters), and a mass within
0.001 of 37.7 kg. -/
theorem c2_scenario1_values :
    diametro_m 0.002 detExemplo = 0.2 ∧
    raio 0.002 detExemplo = 0.1 ∧
    volume 0.002 2.0 detExemplo = Real.pi * 0.01 * 2 ∧
    |volume 0.002 2.0 detExemplo - 0.0628| < 0.0001 ∧
    (medir 600 0.002 2.0 detExemplo).massa_kg = 600 * (Real.pi * 0.01 * 2) ∧
    |(medir 600 0.002 2.0 detExemplo).massa_kg - 37.7| < 0.001 := by
  have hd : diametro_m 0.002 detExemplo = 0.2 := by
    simp [diametro_m, largura_px, detExemplo]
    norm_num
  have hr : raio 0.002 detExemplo = 0.1 := by
    rw [raio, hd]; norm_num
  have hv : volume 0.002 2.0 detExemplo = Real.pi * 0.01 * 2 := by
    rw [volume, hr]; norm_num
  have hm : (medir 600 0.002 2.0 detExemplo).massa_kg =
      600 * (Real.pi * 0.01 * 2) := by
    show massa_kg 600 0.002 2.0 detExemplo = 600 * (Real.pi * 0.01 * 2)
    rw [massa_kg, hv]
  have hπl := Real.pi_gt_d6
  have hπu := Real.pi_lt_d6
  refine ⟨hd, hr, hv, ?_, hm, ?_⟩
  · rw [hv, abs_lt]; constructor <;> nlinarith
  · rw [hm, abs_lt]; constructor <;> nlinarith

/-- C3 counterexample: the degenerate zero-width box (x1=100, y1=100, x2=100,
y2=150) is not skipped; `estimar_massa` emits one Measurement for it, not
none. -/
theorem c3_degenerate_not_skipped :
    (estimar_massa DENSIDADE_MADEIRA FATOR_CONVERSAO COMPRIMENTO_TORA
        imagemTeste [detDegenerada]).2.length = 1 ∧
    (estimar_massa DENSIDADE_MADEIRA FATOR_CONVERSAO COMPRIMENTO_TORA
        imagemTeste [detDegenerada]).2 ≠ [] := by
  have h := loopDet_snd DENSIDADE_MADEIRA FATOR_CONVERSAO COMPRIMENTO_TORA
    [detDegenerada] imagemTeste []
  constructor
  · simp [estimar_massa, h]
  · simp [estimar_massa, h]

/-- C3 amended: a detection with degenerate bounding box (zero or negative
width) is not skipped: `estimar_massa` emits a Measurement for it like for any
other detection, and when the width is exactly zero the emitted mass is 0. -/
theorem c3_amended_emits_measurement (densidade fator comprimento : ℝ)
    (img : Imagem) (det : Detection) (h : largura_px det ≤ 0) :
    (estimar_massa densidade fator comprimento img [det]).2 =
        [medir densidade fator comprimento det] ∧
    (largura_px det = 0 →
      (medir densidade fator comprimento det).massa_kg = 0) := by
  constructor
  · simpa [estimar_massa] using
      loopDet_snd densidade fator comprimento [det] img []
  · intro h0
    show massa_kg densidade fator comprimento det = 0
    rw [massa_closed_form, h0]
    norm_num

theorem c3_amended_emits_measurement_witness :
    (estimar_massa 600 0.002 2.0 imagemTeste [detDegenerada]).2 =
        [medir 600 0.002 2.0 detDegenerada] ∧
    (largura_px detDegenerada = 0 →
      (medir 600 0.002 2.0 detDegenerada).massa_kg = 0) :=
  c3_amended_emits_measurement 600 0.002 2.0 imagemTeste detDegenerada
    (by decide)

/-- C4: the density read by the estimation pass is not the user-selected one.
In a script run where the user selected the Pinho preset (500), the emitted
Measurement is computed with the module constant 600 bound at line 9, and the
mass it would have had with the selected density 500 differs from the mass
actually computed with 600. -/
theorem c4_density_ignored_by_estimation :
    (scriptRun TipoMadeira.pinho imagemTeste [detExemplo]).1.2 =
        [medir 600 FATOR_CONVERSAO COMPRIMENTO_TORA detExemplo] ∧
    densidadeSelecionada TipoMadeira.pinho = 500 ∧
    (medir 500 FATOR_CONVERSAO COMPRIMENTO_TORA detExemplo).massa_kg ≠
      (medir 600 FATOR_CONVERSAO COMPRIMENTO_TORA detExemplo).massa_kg := by
  refine ⟨?_, rfl, ?_⟩
  · have h := loopDet_snd DENSIDADE_MADEIRA FATOR_CONVERSAO COMPRIMENTO_TORA
      [detExemplo] imagemTeste []
    simpa [scriptRun, estimar_massa, DENSIDADE_MADEIRA] using h
  · show massa_kg 500 FATOR_CONVERSAO COMPRIMENTO_TORA detExemplo ≠
      massa_kg 600 FATOR_CONVERSAO COMPRIMENTO_TORA detExemplo
    rw [massa_closed_form, massa_closed_form]
    have hπ := Real.pi_pos
    have hw : ((largura_px detExemplo : ℤ) : ℝ) = 100 := by
      norm_num [largura_px, detExemplo]
    rw [hw]
    simp only [FATOR_CONVERSAO, COMPRIMENTO_TORA]
    intro h
    nlinarith

/-- C6: a detection with `width_px = 0` yields `mass_kg = 0`, so its mass is
not greater than 0. -/
theorem c6_zero_width_mass_not_positive (densidade fator comprimento : ℝ)
    (det : Detection) (h : largura_px det = 0) :
    (medir densidade fator comprimento det).massa_kg = 0 ∧
    ¬ 0 < (medir densidade fator comprimento det).massa_kg := by
  have h0 : (medir densidade fator comprimento det).massa_kg = 0 := by
    show massa_kg densidade fator comprimento det = 0
    rw [massa_closed_form, h]
    norm_num
  exact ⟨h0, by rw [h0]; exact lt_irrefl 0⟩

theorem c6_zero_width_mass_not_positive_witness :
    (medir 600 0.002 2.0 detDegenerada).massa_kg = 0 ∧
    ¬ 0 < (medir 600 0.002 2.0 detDegenerada).massa_kg :=
  c6_zero_width_mass_not_positive 600 0.002 2.0 detDegenerada (by decide)

/-- C7: with positive density and conversion factor, the computed mass is
strictly increasing in the pixel width (density fixed) and strictly increasing
in the density (width fixed), all other inputs held fixed. -/
theorem c7_mass_strictly_monotone (densidade densidade2 fator : ℝ)
    (det det2 : Detection) (hd : 0 < densidade) (hf : 0 < fator)
    (hw : 0 < largura_px det) (hww : largura_px det < largura_px det2)
    (hdd : densidade < densidade2) :
    (medir densidade fator COMPRIMENTO_TORA det).massa_kg <
      (medir densidade fator COMPRIMENTO_TORA det2).massa_kg ∧
    (medir densidade fator COMPRIMENTO_TORA det).massa_kg <
      (medir densidade2 fator COMPRIMENTO_TORA det).massa_kg := by
  have hw1 : (0 : ℝ) < (largura_px det : ℝ) := by exact_mod_cast hw
  have hw2 : ((largura_px det : ℤ) : ℝ) < ((largura_px det2 : ℤ) : ℝ) := by
    exact_mod_cast hww
  have hπ := Real.pi_pos
  have ha : (0 : ℝ) < (largura_px det : ℝ) * fator := mul_pos hw1 hf
  have hb : (largura_px det : ℝ) * fator < (largura_px det2 : ℝ) * fator :=
    mul_lt_mul_of_pos_right hw2 hf
  constructor
  · show massa_kg densidade fator COMPRIMENTO_TORA det <
      massa_kg densidade fator COMPRIMENTO_TORA det2
    rw [massa_closed_form, massa_closed_form]
    have hsq : ((largura_px det : ℝ) * fator) ^ 2 <
        ((largura_px det2 : ℝ) * fator) ^ 2 := by nlinarith
    have hkey := mul_pos (mul_pos hd hπ) (sub_pos.2 hsq)
    simp only [COMPRIMENTO_TORA]
    nlinarith
  · show massa_kg densidade fator COMPRIMENTO_TORA det <
      massa_kg densidade2 fator COMPRIMENTO_TORA det
    have hr : (0 : ℝ) < raio fator det := by
      simp only [raio, diametro_m]
      exact div_pos ha two_pos
    have hvol : 0 < volume fator COMPRIMENTO_TORA det := by
      rw [volume]
      exact mul_pos (mul_pos hπ (pow_pos hr 2)) (by norm_num [COMPRIMENTO_TORA])
    rw [massa_kg, massa_kg]
    exact mul_lt_mul_of_pos_right hdd hvol

theorem c7_mass_strictly_monotone_witness :
    (medir 600 0.002 COMPRIMENTO_TORA detExemplo).massa_kg <
      (medir 600 0.002 COMPRIMENTO_TORA detGrande).massa_kg ∧
    (medir 600 0.002 COMPRIMENTO_TORA detExemplo).massa_kg <
      (medir 700 0.002 COMPRIMENTO_TORA detExemplo).massa_kg :=
  c7_mass_strictly_monotone 600 700 0.002 detExemplo detGrande (by norm_num)
    (by norm_num) (by decide) (by decide) (by norm_num)

/-- C8: the diameter is linear in the conversion factor (scaling the factor by
c scales the diameter by c for fixed pixel width), the mass of a fixed box
scales linearly with the density, and the Scenario-1 box with density 700
yields a mass within 0.02 of 44.0 kg. -/
theorem c8_linear_scaling (fator c densidade : ℝ) (det : Detection) :
    diametro_m (c * fator) det = c * diametro_m fator det ∧
    (medir (c * densidade) fator COMPRIMENTO_TORA det).massa_kg =
      c * (medir densidade fator COMPRIMENTO_TORA det).massa_kg ∧
    |(medir 700 FATOR_CONVERSAO COMPRIMENTO_TORA detExemplo).massa_kg - 44.0|
      < 0.02 := by
  refine ⟨?_, ?_, ?_⟩
  · simp only [diametro_m]
    ring
  · show massa_kg (c * densidade) fator COMPRIMENTO_TORA det =
      c * massa_kg densidade fator COMPRIMENTO_TORA det
    rw [massa_closed_form, massa_closed_form]
    ring
  · have hm : (medir 700 FATOR_CONVERSAO COMPRIMENTO_TORA detExemplo).massa_kg
        = 14 * Real.pi := by
      show massa_kg 700 FATOR_CONVERSAO COMPRIMENTO_TORA detExemplo =
        14 * Real.pi
      rw [massa_closed_form]
      norm_num [largura_px, detExemplo, FATOR_CONVERSAO, COMPRIMENTO_TORA]
      ring
    have hπl := Real.pi_gt_d6
    have hπu := Real.pi_lt_d6
    rw [hm, abs_lt]
    constructor <;> nlinarith

/-- C10: a detection with negative width (x2 < x1) still gets a Measurement,
its diameter is negative, its mass is strictly positive because the radius is
squared in the volume formula, and the mass of every detection is
nonnegative. -/
theorem c10_negative_width_positive_mass (densidade fator : ℝ) (img : Imagem)
    (det : Detection) (hd : 0 < densidade) (hf : 0 < fator)
    (hw : largura_px det < 0) :
    (estimar_massa densidade fator COMPRIMENTO_TORA img [det]).2 =
        [medir densidade fator COMPRIMENTO_TORA det] ∧
    (medir densidade fator COMPRIMENTO_TORA det).diametro_m < 0 ∧
    0 < (medir densidade fator COMPRIMENTO_TORA det).massa_kg ∧
    ∀ det2 : Detection,
      0 ≤ (medir densidade fator COMPRIMENTO_TORA det2).massa_kg := by
  have hwR : ((largura_px det : ℤ) : ℝ) < 0 := by exact_mod_cast hw
  have hπ := Real.pi_pos
  refine ⟨?_, ?_, ?_, ?_⟩
  · simpa [estimar_massa] using
      loopDet_snd densidade fator COMPRIMENTO_TORA [det] img []
  · show diametro_m fator det < 0
    rw [diametro_m]
    exact mul_neg_of_neg_of_pos hwR hf
  · show 0 < massa_kg densidade fator COMPRIMENTO_TORA det
    rw [massa_closed_form]
    have hneg : (largura_px det : ℝ) * fator / 2 < 0 :=
      div_neg_of_neg_of_pos (mul_neg_of_neg_of_pos hwR hf) two_pos
    have hsq := pow_two_pos_of_ne_zero (ne_of_lt hneg)
    exact mul_pos hd
      (mul_pos (mul_pos hπ hsq) (by norm_num [COMPRIMENTO_TORA]))
  · intro det2
    show 0 ≤ massa_kg densidade fator COMPRIMENTO_TORA det2
    rw [massa_closed_form]
    exact mul_nonneg hd.le
      (mul_nonneg (mul_nonneg hπ.le (sq_nonneg _))
        (by norm_num [COMPRIMENTO_TORA]))

theorem c10_negative_width_positive_mass_witness :
    (estimar_massa 600 0.002 COMPRIMENTO_TORA imagemTeste [detNegativa]).2 =
        [medir 600 0.002 COMPRIMENTO_TORA detNegativa] ∧
    (medir 600 0.002 COMPRIMENTO_TORA detNegativa).diametro_m < 0 ∧
    0 < (medir 600 0.002 COMPRIMENTO_TORA detNegativa).massa_kg ∧
    ∀ det2 : Detection,
      0 ≤ (medir 600 0.002 COMPRIMENTO_TORA det2).massa_kg :=
  c10_negative_width_positive_mass 600 0.002 imagemTeste detNegativa
    (by norm_num) (by norm_num) (by decide)
